import Mathlib

/-!
Shallow embedding of `src/services/influx.js` (crypto-pulse-hub): a thin
gateway over an InfluxDB client exposing `writeData`, `queryData` and
`queryLatestDataPoint`, plus the module-level `writeOptions` configuration
and the shared keep-alive `Agent` lifecycle.

Modelling conventions:
- Promise outcomes are `Except ErrMsg`; `ErrMsg` is the error message string.
- The external InfluxDB client (collaborator) is passed in as functions:
  `collect` models `queryApi.collectRows`, `send` models the network send
  performed by `writeApi.flush()`, and a `writePointsThrow : Option ErrMsg`
  models a synchronous throw from `writeApi.writePoints`.
- Each operation returns, next to its outcome, the list of `logger.error`
  messages it emits, in order.
- JavaScript `undefined` field reads are `Option.none`; a `NaN` timestamp
  (from `new Date(x).getTime()` on an unparseable or absent `_time`) is
  `Option.none` in `LatestPoint.timestamp`.
-/

/-- Error messages carried by rejected promises. -/
abbrev ErrMsg := String

/-- The double-quote character, used when counting quotes in built queries. -/
def dq : Char := Char.ofNat 34

/-- A result row from `collectRows`: the columns `queryLatestDataPoint`
reads. `none` models a JavaScript `undefined` column. `time` is the `_time`
column as its native (string) value. -/
structure Row where
  time : Option String
  symbol : Option String
  interval : Option String
deriving DecidableEq

/-- The object resolved by `queryLatestDataPoint`. `timestamp := none`
models `NaN` (absent or unparseable `_time`); `none` in the other fields
models `undefined`. -/
structure LatestPoint where
  timestamp : Option Int
  symbol : Option String
  interval : Option String
deriving DecidableEq

/-- `DEFAULT_WriteOptions.batchSize` of the influxdb-client library. -/
def DEFAULT_batchSize : Nat := 1000

/-- `const flushBatchSize = DEFAULT_WriteOptions.batchSize;` -/
def flushBatchSize : Nat := DEFAULT_batchSize

/-- The write-options record passed to `getWriteApi` (only the fields the
source sets). -/
structure WriteOptions where
  batchSize : Nat
  flushInterval : Nat
  maxBufferLines : Nat
  maxRetries : Nat
deriving DecidableEq

/-- The `writeOptions` object of `src/services/influx.js`. -/
def writeOptions : WriteOptions :=
  { batchSize := flushBatchSize + 1
    flushInterval := 15000
    maxBufferLines := 30000
    maxRetries := 0 }

/-- Modelled from the spec: "automatic flushing never triggers — neither by
batch size (threshold set above the client's real default) nor by timer".
Per the source comment on `flushInterval`, `0 means don't periodically
flush`, so timer auto-flush is disabled exactly when `flushInterval = 0`. -/
def spec_autoFlushNeverTriggers (o : WriteOptions) : Bool :=
  decide (DEFAULT_batchSize < o.batchSize) && (o.flushInterval == 0)

/-- Outcome of one `writeData` call: the promise result, the collaborator
write buffer right after the enqueue step, and the `logger.error` lines
emitted. -/
structure WriteResult (α : Type) where
  outcome : Except ErrMsg Unit
  buffer : List α
  logs : List String

/-- `writeApi.flush()` of the collaborator: resolves immediately when the
buffer is empty, otherwise settles with the outcome of sending the buffered
points. The non-empty case is the injected `send`; the empty no-op case is
modelled from the spec ("no-op flush"). -/
def flushModel {α : Type} (send : List α → Except ErrMsg Unit)
    (buffer : List α) : Except ErrMsg Unit :=
  match buffer with
  | [] => Except.ok ()
  | _ => send buffer

/-- `writeData(points)`: inside a `try`, calls `writeApi.writePoints(points)`
(which may throw synchronously, modelled by `writePointsThrow`) and then
does `return writeApi.flush();`. The flush promise is returned without
`await`, so a later rejection of it never enters the `catch` block: only a
synchronous throw is logged. -/
def writeData {α : Type} (writePointsThrow : Option ErrMsg)
    (send : List α → Except ErrMsg Unit)
    (buffer points : List α) : WriteResult α :=
  match writePointsThrow with
  | some e =>
      { outcome := Except.error e
        buffer := buffer
        logs := ["Error writing data points to InfluxDB: " ++ e] }
  | none =>
      { outcome := flushModel send (buffer ++ points)
        buffer := buffer ++ points
        logs := [] }

/-- `queryData(query)`: a bare pass-through to `queryApi.collectRows(query)`
with no try/catch and no logging. -/
def queryData (collect : String → Except ErrMsg (List Row))
    (query : String) : Except ErrMsg (List Row) × List String :=
  (collect query, [])

/-- The Flux query template of `queryLatestDataPoint`, with `influxBucket`
and the metric spliced in verbatim. -/
def buildLatestQuery (bucket metric : String) : String :=
  "\n    from(bucket: \"" ++ bucket ++
    "\")\n      |> range(start: -1h)\n      |> filter(fn: (r) => r._measurement == \"" ++
    metric ++ "\")\n      |> last()\n  "

/-- The message of the `TypeError` thrown when `result[0]` is `undefined`
and the `.then` handler reads `dataPoint._time`. -/
def typeErrorUndefined : ErrMsg :=
  "TypeError: Cannot read properties of undefined (reading _time)"

/-- The `.then` handler of `queryLatestDataPoint`: takes `result[0]`
unguarded (empty result: reading `._time` off `undefined` throws a
`TypeError`), else builds the object from the first row with no shape
validation. -/
def queryLatestExtract (parseDateMs : String → Option Int)
    (result : List Row) : Except ErrMsg LatestPoint :=
  match result with
  | [] => Except.error typeErrorUndefined
  | dp :: _ =>
      Except.ok
        { timestamp := dp.time.bind parseDateMs
          symbol := dp.symbol
          interval := dp.interval }

/-- The `logger.error` line of `queryLatestDataPoint` for a failure `e`. -/
def logLatestErr (metric e : String) : String :=
  "Error querying latest data point for metric " ++ metric ++ ": " ++ e

/-- `queryLatestDataPoint(metric)`: builds the query, runs it through
`queryData`, extracts the first row in `.then`, and in `.catch` logs (with
the metric name) and rethrows any failure of either stage. `parseDateMs`
models `new Date(s).getTime()` millisecond conversion, `none` standing for
`NaN`. -/
def queryLatestDataPoint (collect : String → Except ErrMsg (List Row))
    (parseDateMs : String → Option Int) (bucket metric : String) :
    Except ErrMsg LatestPoint × List String :=
  match (queryData collect (buildLatestQuery bucket metric)).1 with
  | Except.error e => (Except.error e, [logLatestErr metric e])
  | Except.ok rows =>
      match queryLatestExtract parseDateMs rows with
      | Except.error e => (Except.error e, [logLatestErr metric e])
      | Except.ok lp => (Except.ok lp, [])

/-- A process-lifecycle event: module load constructs the shared keep-alive
`Agent`, operations run against it, and the `process.on(exit)` hook destroys
it. -/
inductive LifecycleEvent where
  | createAgent : LifecycleEvent
  | destroyAgent : LifecycleEvent
  | operation : String → LifecycleEvent
deriving DecidableEq

/-- The event trace of one process running `src/services/influx.js`: the
module-level `new Agent(...)` happens once at load, before any operation;
the registered exit hook `agent.destroy()` runs once at shutdown. -/
def processTrace (ops : List String) : List LifecycleEvent :=
  LifecycleEvent.createAgent ::
    (ops.map LifecycleEvent.operation ++ [LifecycleEvent.destroyAgent])

/-- Number of double-quote characters in a string. -/
def quoteCount (s : String) : Nat := s.toList.count dq

/-- A collaborator whose query resolves with no rows. -/
def collectRowsEmpty : String → Except ErrMsg (List Row) :=
  fun _ => Except.ok []

/-- A collaborator whose query rejects with message boom. -/
def collectRowsFail : String → Except ErrMsg (List Row) :=
  fun _ => Except.error "boom"

/-- A well-formed sample row. -/
def rowBTC : Row :=
  { time := some "2024-01-01T00:00:00Z", symbol := some "BTC",
    interval := some "1m" }

/-- A collaborator whose query resolves with the single row `rowBTC`. -/
def collectRowBTC : String → Except ErrMsg (List Row) :=
  fun _ => Except.ok [rowBTC]

/-- A row with every column absent (`undefined`). -/
def rowBare : Row := { time := none, symbol := none, interval := none }

/-- A collaborator whose query resolves with the single bare row. -/
def collectRowBare : String → Except ErrMsg (List Row) :=
  fun _ => Except.ok [rowBare]

/-- A date conversion resolving the sample time to a fixed epoch-ms value. -/
def parseMsSample : String → Option Int := fun _ => some 1704067200000

/-- A date conversion that always yields `NaN`. -/
def parseMsNone : String → Option Int := fun _ => none

/-- String append distributes over the double-quote count. -/
lemma quoteCount_append (s t : String) :
    quoteCount (s ++ t) = quoteCount s + quoteCount t := by
  show (s ++ t).data.count dq = s.data.count dq + t.data.count dq
  rw [String.data_append, List.count_append]

/-- Claim C1: on a metric whose query returns an empty row sequence,
`queryLatestDataPoint` rejects with the `TypeError` raised by reading
`_time` off the `undefined` first row (which the catch logs and rethrows),
not with a distinct `EmptyResultError`. -/
theorem C1_empty_result_is_undefined_dereference :
    queryLatestDataPoint collectRowsEmpty parseMsNone "crypto" "price" =
      (Except.error typeErrorUndefined,
        [logLatestErr "price" typeErrorUndefined]) := rfl

/-- Claim C2: when `writePoints` succeeds and the flush promise rejects,
`writeData` rejects with that error and performs no retry, but the rejected
promise is returned from the `try` block without `await`, so the `catch`
never runs and zero log entries are emitted — not exactly one. -/
theorem C2_flush_rejection_skips_catch_log :
    writeData none (fun _ => Except.error "boom") ([] : List Nat) [1] =
      { outcome := Except.error "boom", buffer := [1], logs := [] } := rfl

/-- Claim C3 counterexample: the spec-worded condition "automatic flushing
never triggers (batch threshold above default and timer disabled)" is false
of the configured `writeOptions`, whose `flushInterval` is 15000, not 0. -/
theorem C3_counterexample :
    spec_autoFlushNeverTriggers writeOptions = false := rfl

/-- Claim C3 (amended): the batch threshold is set one above the client's
default, and write retries are disabled, but `flushInterval` is 15000 ms
rather than 0, so timer-based automatic flushing does trigger — flush
timing is not exclusively caller-controlled. -/
theorem C3_batch_above_default_but_timer_enabled :
    writeOptions.batchSize = DEFAULT_batchSize + 1 ∧
    writeOptions.flushInterval = 15000 ∧
    writeOptions.flushInterval ≠ 0 ∧
    writeOptions.maxRetries = 0 := by decide

/-- Claim C4 counterexample: a `queryData` call whose row collection
rejects propagates the failure with an empty log trace — no error log entry
is emitted by the gateway for this operation. -/
theorem C4_counterexample :
    queryData collectRowsFail "q" = (Except.error "boom", []) := rfl

/-- Claim C4 (amended): `writeData` logs a synchronous `writePoints`
failure exactly once, with the failure message, before re-signaling it;
`queryData` performs no logging of its own — a `QueryError` raised during
row collection propagates to `queryData`'s caller unlogged — while
`queryLatestDataPoint` logs each failure once, with the metric name and
the message, before re-signaling it. -/
theorem C4_logging_per_operation
    (α : Type) (send : List α → Except ErrMsg Unit)
    (buffer points : List α) (ew : ErrMsg)
    (collect : String → Except ErrMsg (List Row))
    (parseDateMs : String → Option Int) (q bucket metric : String)
    (e : ErrMsg)
    (h : collect (buildLatestQuery bucket metric) = Except.error e) :
    writeData (some ew) send buffer points =
      { outcome := Except.error ew, buffer := buffer,
        logs := ["Error writing data points to InfluxDB: " ++ ew] } ∧
    (queryData collect q).2 = [] ∧
    queryLatestDataPoint collect parseDateMs bucket metric =
      (Except.error e, [logLatestErr metric e]) := by
  refine ⟨rfl, rfl, ?_⟩
  simp [queryLatestDataPoint, queryData, h]

/-- Claim C4 witness: the amended statement at a concrete synchronous
write failure and a concrete failing query. -/
theorem C4_logging_per_operation_w :
    writeData (some "down") (fun _ => Except.ok ()) ([] : List Nat) [1] =
      { outcome := Except.error "down", buffer := [],
        logs := ["Error writing data points to InfluxDB: down"] } ∧
    (queryData collectRowsFail "q").2 = [] ∧
    queryLatestDataPoint collectRowsFail parseMsNone "crypto" "price" =
      (Except.error "boom", [logLatestErr "price" "boom"]) :=
  C4_logging_per_operation Nat (fun _ => Except.ok ()) [] [1] "down"
    collectRowsFail parseMsNone "q" "crypto" "price" "boom" rfl

/-- Claim C5: a `writeData` call enqueues the supplied points at the end of
the collaborator buffer in the order given, emits no logs, and its outcome
is exactly the outcome of the flush it requests on that buffer. -/
theorem C5_write_order_and_flush (α : Type)
    (send : List α → Except ErrMsg Unit) (buffer points : List α) :
    (writeData none send buffer points).buffer = buffer ++ points ∧
    (writeData none send buffer points).outcome =
      flushModel send (buffer ++ points) ∧
    (writeData none send buffer points).logs = [] :=
  ⟨rfl, rfl, rfl⟩

/-- Claim C6: `queryLatestDataPoint` issues exactly the fixed template with
a 1-hour lookback, a measurement filter on the given metric and a `last()`
stage; and on a non-empty result it resolves with the first row's native
time converted to epoch milliseconds and its `symbol` and `interval`
verbatim. -/
theorem C6_latest_query_template_and_extraction
    (collect : String → Except ErrMsg (List Row))
    (parseDateMs : String → Option Int) (bucket metric : String)
    (r : Row) (rest : List Row)
    (h : collect (buildLatestQuery bucket metric) = Except.ok (r :: rest)) :
    buildLatestQuery bucket metric =
      "\n    from(bucket: \"" ++ bucket ++
        "\")\n      |> range(start: -1h)\n      |> filter(fn: (r) => r._measurement == \"" ++
        metric ++ "\")\n      |> last()\n  " ∧
    queryLatestDataPoint collect parseDateMs bucket metric =
      (Except.ok { timestamp := r.time.bind parseDateMs,
                   symbol := r.symbol, interval := r.interval }, []) := by
  refine ⟨rfl, ?_⟩
  simp [queryLatestDataPoint, queryData, h, queryLatestExtract]

/-- Claim C6 witness: the extraction at a concrete one-row result. -/
theorem C6_latest_query_template_and_extraction_w :
    queryLatestDataPoint collectRowBTC parseMsSample "crypto" "price" =
      (Except.ok { timestamp := some 1704067200000, symbol := some "BTC",
                   interval := some "1m" }, []) :=
  (C6_latest_query_template_and_extraction collectRowBTC parseMsSample
    "crypto" "price" rowBTC [] rfl).2

/-- Claim C7: `writeData` on an empty sequence of points (with nothing
buffered) resolves without error: the requested flush is a no-op. -/
theorem C7_empty_write_succeeds (α : Type)
    (send : List α → Except ErrMsg Unit) :
    (writeData none send ([] : List α) []).outcome = Except.ok () ∧
    (writeData none send ([] : List α) []).logs = [] :=
  ⟨rfl, rfl⟩

/-- Claim C8: in every process trace, the shared keep-alive agent is
created exactly once, before any operation (it heads the trace), and is
destroyed exactly once, at shutdown (it ends the trace), however many
operations ran in between. -/
theorem C8_agent_singleton (ops : List String) :
    (processTrace ops).count LifecycleEvent.createAgent = 1 ∧
    (processTrace ops).count LifecycleEvent.destroyAgent = 1 ∧
    (processTrace ops).head? = some LifecycleEvent.createAgent ∧
    (processTrace ops).getLast? = some LifecycleEvent.destroyAgent := by
  have hmapc : (ops.map LifecycleEvent.operation).count
      LifecycleEvent.createAgent = 0 := by
    simp [List.count_eq_zero, List.mem_map]
  have hmapd : (ops.map LifecycleEvent.operation).count
      LifecycleEvent.destroyAgent = 0 := by
    simp [List.count_eq_zero, List.mem_map]
  refine ⟨?_, ?_, rfl, ?_⟩
  · simp [processTrace, List.count_cons, List.count_append, hmapc]
  · simp [processTrace, List.count_cons, List.count_append, hmapd]
  · show ((LifecycleEvent.createAgent :: ops.map LifecycleEvent.operation) ++
        LifecycleEvent.destroyAgent :: []).getLast? =
      some LifecycleEvent.destroyAgent
    rw [List.getLast?_append_cons]
    rfl

/-- Claim C9: the issued latest-point query is exactly the fixed template
with the raw metric (and bucket) spliced in verbatim — no escaping or
validation — so its double-quote count is the template's four plus
whatever quotes the spliced values carry; a metric containing a
double-quote therefore yields a query whose quoting structure differs from
the template's. -/
theorem C9_metric_spliced_verbatim (bucket metric : String) :
    buildLatestQuery bucket metric =
      "\n    from(bucket: \"" ++ bucket ++
        "\")\n      |> range(start: -1h)\n      |> filter(fn: (r) => r._measurement == \"" ++
        metric ++ "\")\n      |> last()\n  " ∧
    quoteCount (buildLatestQuery bucket metric) =
      4 + quoteCount bucket + quoteCount metric ∧
    (0 < quoteCount metric →
      quoteCount (buildLatestQuery bucket metric) ≠ 4 + quoteCount bucket) := by
  have h1 : quoteCount "\n    from(bucket: \"" = 1 := rfl
  have h2 : quoteCount
      "\")\n      |> range(start: -1h)\n      |> filter(fn: (r) => r._measurement == \"" =
      2 := rfl
  have h3 : quoteCount "\")\n      |> last()\n  " = 1 := rfl
  have hcount : quoteCount (buildLatestQuery bucket metric) =
      4 + quoteCount bucket + quoteCount metric := by
    simp [buildLatestQuery, quoteCount_append, h1, h2, h3]
    omega
  exact ⟨rfl, hcount, fun hm => by omega⟩

/-- Claim C9 witness: a metric carrying a double-quote character yields a
query with more quotes than the template accounts for. -/
theorem C9_metric_spliced_verbatim_w :
    0 < quoteCount "x\"y" ∧
    quoteCount (buildLatestQuery "crypto" "x\"y") ≠ 4 + quoteCount "crypto" :=
  ⟨by decide, (C9_metric_spliced_verbatim "crypto" "x\"y").2.2 (by decide)⟩

/-- Claim C10: a non-empty result whose first row lacks the `symbol` and
`interval` columns and has no parseable time still resolves successfully:
`queryLatestDataPoint` performs no shape validation and returns `undefined`
(`none`) fields and a `NaN` (`none`) timestamp. -/
theorem C10_no_row_shape_validation
    (collect : String → Except ErrMsg (List Row))
    (parseDateMs : String → Option Int) (bucket metric : String)
    (r : Row) (rest : List Row)
    (h : collect (buildLatestQuery bucket metric) = Except.ok (r :: rest))
    (ht : r.time = none) (hs : r.symbol = none) (hi : r.interval = none) :
    queryLatestDataPoint collect parseDateMs bucket metric =
      (Except.ok { timestamp := none, symbol := none, interval := none },
        []) := by
  simp [queryLatestDataPoint, queryData, h, queryLatestExtract, ht, hs, hi]

/-- Claim C10 witness: the bare one-row result at concrete inputs. -/
theorem C10_no_row_shape_validation_w :
    queryLatestDataPoint collectRowBare parseMsSample "crypto" "price" =
      (Except.ok { timestamp := none, symbol := none, interval := none },
        []) :=
  C10_no_row_shape_validation collectRowBare parseMsSample "crypto" "price"
    rowBare [] rfl rfl rfl rfl
